import Mathlib

/-!
Shallow embedding of the core game state machine of the Snake-Game
repository (files `src/script.js` and `src/unnamed/part_000`; the two
variants have identical core logic).

Embedded pieces:
* `tileCount` (`canvas.width / gridSize`, not statically known) is a
  parameter,
* the module-level mutable variables `snake, food, dx, dy, score,
  gameOver, paused, directionLock` become a `GameState` record,
* `getSpeedMs`, `randomFood`, `update`, `gameLoop`, `endGame`,
  `setDirection`, `resetGame` and the space-key pause toggle are
  translated function by function.

Randomness (`Math.random()`) is modelled by passing the output stream of
the sampler explicitly: `Math.floor(Math.random() * tileCount)` is an
arbitrary natural number below `tileCount`, and the golden-apple test an
arbitrary Bool.  The rejection-sampling loop of `randomFood` gets explicit
fuel (the JS `while (true)` loop has no bound; every terminating run of
the loop is a run with some fuel).  Where `update` and `resetGame`
re-spawn food they take the spawned value through an oracle function
`spawn`, so the simulation core and the spawner can be analysed
separately, exactly as the design splits them.
-/

set_option autoImplicit false

namespace Snake

/-- Integer grid position, `{x, y}` in the source.  Equality is
structural (the JS code always compares `p.x === q.x && p.y === q.y`). -/
structure Pos where
  x : Int
  y : Int
deriving DecidableEq, Repr, Inhabited

/-- The `type` tag of a food object: `"normal"` or `"golden"`. -/
inductive FoodType where
  | normal
  | golden
deriving DecidableEq, Repr

/-- A food object `{x, y, type}` as built by `randomFood`. -/
structure Food where
  x : Int
  y : Int
  kind : FoodType
deriving DecidableEq, Repr

/-- The module-level mutable core state of the game: `snake` (head
first), `food`, direction `dx, dy`, `score`, the lifecycle flags
`gameOver` and `paused`, and the per-tick `directionLock`. -/
structure GameState where
  snake : List Pos
  food : Food
  dx : Int
  dy : Int
  score : Nat
  gameOver : Bool
  paused : Bool
  directionLock : Bool
deriving DecidableEq, Repr

/-- `START_SPEED_MS = 140`. -/
def START_SPEED_MS : Int := 140

/-- `MIN_SPEED_MS = 60`. -/
def MIN_SPEED_MS : Int := 60

/-- `SPEED_UP_EVERY = 3`. -/
def SPEED_UP_EVERY : Nat := 3

/-- `getSpeedMs()`: `level = Math.floor(score / SPEED_UP_EVERY)`,
`speed = START_SPEED_MS - level * 12`, result
`Math.max(MIN_SPEED_MS, speed)`. -/
def getSpeedMs (score : Nat) : Int :=
  let level : Nat := score / SPEED_UP_EVERY
  let speed : Int := START_SPEED_MS - (level : Int) * 12
  max MIN_SPEED_MS speed

/-- The `onSnake` check inside `randomFood`:
`snake.some(p => p.x === f.x && p.y === f.y)`. -/
def onSnake (snake : List Pos) (x y : Int) : Bool :=
  snake.any fun p => p.x == x && p.y == y

/-- One sampler draw for `randomFood`: the two
`Math.floor(Math.random() * tileCount)` results and the
`Math.random() < 0.15` golden test. -/
structure Draw where
  rx : Nat
  ry : Nat
  golden : Bool

/-- The rejection-sampling loop of `randomFood()`, with the random source
given as the stream `r` of draws (consumed from index `i` on) and
explicit fuel: build `f` from the next draw, return it unless its cell is
on the snake, else loop. -/
def randomFoodAux (snake : List Pos) (r : Nat → Draw) : Nat → Nat → Option Food
  | 0, _ => none
  | fuel + 1, i =>
    let d := r i
    let f : Food := ⟨(d.rx : Int), (d.ry : Int), if d.golden then .golden else .normal⟩
    if onSnake snake f.x f.y then randomFoodAux snake r fuel (i + 1) else some f

/-- `randomFood()` starting at the head of the random stream. -/
def randomFood (snake : List Pos) (r : Nat → Draw) (fuel : Nat) : Option Food :=
  randomFoodAux snake r fuel 0

/-- `newHead = { x: head.x + dx, y: head.y + dy }` where
`head = snake[0]`. -/
def newHead (s : GameState) : Pos :=
  let head := s.snake.headI
  ⟨head.x + s.dx, head.y + s.dy⟩

/-- The wall-collision test of `update`: `newHead.x < 0 ||
newHead.x >= tileCount || newHead.y < 0 || newHead.y >= tileCount`. -/
def wallCollision (tileCount : Nat) (p : Pos) : Bool :=
  decide (p.x < 0) || decide ((tileCount : Int) ≤ p.x) ||
    decide (p.y < 0) || decide ((tileCount : Int) ≤ p.y)

/-- The self-collision test of `update`:
`snake.some(p => p.x === newHead.x && p.y === newHead.y)`. -/
def selfCollision (snake : List Pos) (p : Pos) : Bool :=
  snake.any fun q => q.x == p.x && q.y == p.y

/-- `update()`.  `endGame()` sets `gameOver = true` (its other effects
are sound and drawing only).  On eating, `food = randomFood()` runs
against the already grown snake; that spawned value is supplied by the
oracle `spawn` applied to the grown snake.  `startLoop()` only re-arms
the timer and touches no core state. -/
def update (tileCount : Nat) (spawn : List Pos → Food) (s : GameState) : GameState :=
  let nh := newHead s
  if wallCollision tileCount nh then
    { s with gameOver := true }
  else if selfCollision s.snake nh then
    { s with gameOver := true }
  else
    let snake1 := nh :: s.snake
    if nh.x == s.food.x && nh.y == s.food.y then
      let score1 := if s.food.kind == FoodType.golden then s.score + 3 else s.score + 1
      { s with snake := snake1, score := score1, food := spawn snake1 }
    else
      { s with snake := snake1.dropLast }

/-- `gameLoop()`: return if `gameOver || paused`, else `update()` and
then `directionLock = false` (the draw and UI calls in between touch no
core state). -/
def gameLoop (tileCount : Nat) (spawn : List Pos → Food) (s : GameState) : GameState :=
  if s.gameOver || s.paused then s
  else
    let s1 := update tileCount spawn s
    { s1 with directionLock := false }

/-- `setDirection(newDx, newDy)`: return if `gameOver`; return if
`directionLock`; return if `newDx === -dx && newDy === -dy`; else set the
direction and the lock (`playTurn()` touches no core state). -/
def setDirection (newDx newDy : Int) (s : GameState) : GameState :=
  if s.gameOver then s
  else if s.directionLock then s
  else if newDx == -s.dx && newDy == -s.dy then s
  else { s with dx := newDx, dy := newDy, directionLock := true }

/-- The space-key handler: `if (!gameOver) { paused = !paused; ... }`. -/
def togglePause (s : GameState) : GameState :=
  if s.gameOver then s else { s with paused := !s.paused }

/-- `resetGame()`: `snake = [{x:10,y:10}]`, `dx = 1, dy = 0`,
`score = 0`, `gameOver = false`, `paused = false`,
`directionLock = false`, then `food = randomFood()` against that
one-segment snake (value through the oracle `spawn`). -/
def resetGame (spawn : List Pos → Food) : GameState :=
  let snake0 : List Pos := [⟨10, 10⟩]
  { snake := snake0
    food := spawn snake0
    dx := 1
    dy := 0
    score := 0
    gameOver := false
    paused := false
    directionLock := false }

/-- All states reachable from `resetGame()` by any sequence of
`gameLoop()` ticks, `setDirection` calls and pause toggles; each
food-spawning step may use any spawner oracle (this quantifies over all
random outcomes). -/
inductive Reachable (tileCount : Nat) : GameState → Prop where
  | reset (spawn : List Pos → Food) : Reachable tileCount (resetGame spawn)
  | tick (spawn : List Pos → Food) {s : GameState} :
      Reachable tileCount s → Reachable tileCount (gameLoop tileCount spawn s)
  | dir (newDx newDy : Int) {s : GameState} :
      Reachable tileCount s → Reachable tileCount (setDirection newDx newDy s)
  | pause {s : GameState} :
      Reachable tileCount s → Reachable tileCount (togglePause s)

/-- The point value of a food class: normal (Standard) = 1, golden
(Bonus) = 3, as added to `score` in `update`. -/
def points : FoodType → Nat
  | .normal => 1
  | .golden => 3

/-- A fixed spawner oracle used for concrete witness states. -/
def constSpawn : List Pos → Food := fun _ => ⟨5, 5, .normal⟩

/-- A paused, not-over state with the direction lock clear. -/
def pausedState : GameState :=
  { snake := [⟨10, 10⟩], food := ⟨5, 5, .normal⟩, dx := 1, dy := 0,
    score := 0, gameOver := false, paused := true, directionLock := false }

/-- A game-over state. -/
def overState : GameState :=
  { snake := [⟨10, 10⟩], food := ⟨5, 5, .normal⟩, dx := 1, dy := 0,
    score := 0, gameOver := true, paused := false, directionLock := false }

/-- A running state heading right with the lock clear. -/
def runState : GameState :=
  { snake := [⟨10, 10⟩], food := ⟨5, 5, .normal⟩, dx := 1, dy := 0,
    score := 0, gameOver := false, paused := false, directionLock := false }

/-- A running state heading down, so that a `setDirection(0,-1)` call is
a rejected reversal. -/
def downState : GameState :=
  { snake := [⟨10, 10⟩], food := ⟨5, 5, .normal⟩, dx := 0, dy := 1,
    score := 0, gameOver := false, paused := false, directionLock := false }

/-- A running state whose next tick hits the right wall on a 20-cell
grid. -/
def wallState : GameState :=
  { snake := [⟨19, 10⟩], food := ⟨5, 5, .normal⟩, dx := 1, dy := 0,
    score := 0, gameOver := false, paused := false, directionLock := false }

/-- A running state whose next tick lands exactly on the food. -/
def eatState : GameState :=
  { snake := [⟨10, 10⟩], food := ⟨11, 10, .normal⟩, dx := 1, dy := 0,
    score := 0, gameOver := false, paused := false, directionLock := false }

/- Helper lemmas about the embedded operations. -/

theorem gameLoop_running (tileCount : Nat) (spawn : List Pos → Food) (s : GameState)
    (h1 : s.gameOver = false) (h2 : s.paused = false) :
    gameLoop tileCount spawn s = { update tileCount spawn s with directionLock := false } := by
  simp [gameLoop, h1, h2]

theorem update_wall {tileCount : Nat} {spawn : List Pos → Food} {s : GameState}
    (hw : wallCollision tileCount (newHead s) = true) :
    update tileCount spawn s = { s with gameOver := true } := by
  simp [update, hw]

theorem update_self {tileCount : Nat} {spawn : List Pos → Food} {s : GameState}
    (hw : wallCollision tileCount (newHead s) = false)
    (hs : selfCollision s.snake (newHead s) = true) :
    update tileCount spawn s = { s with gameOver := true } := by
  simp [update, hw, hs]

theorem update_eat {tileCount : Nat} {spawn : List Pos → Food} {s : GameState}
    (hw : wallCollision tileCount (newHead s) = false)
    (hs : selfCollision s.snake (newHead s) = false)
    (hf : ((newHead s).x == s.food.x && (newHead s).y == s.food.y) = true) :
    update tileCount spawn s =
      { s with snake := newHead s :: s.snake,
               score := if s.food.kind == FoodType.golden then s.score + 3 else s.score + 1,
               food := spawn (newHead s :: s.snake) } := by
  simp only [update, hw, hs, hf]
  simp

theorem update_move {tileCount : Nat} {spawn : List Pos → Food} {s : GameState}
    (hw : wallCollision tileCount (newHead s) = false)
    (hs : selfCollision s.snake (newHead s) = false)
    (hf : ((newHead s).x == s.food.x && (newHead s).y == s.food.y) = false) :
    update tileCount spawn s = { s with snake := (newHead s :: s.snake).dropLast } := by
  simp only [update, hw, hs, hf]
  simp

theorem selfCollision_iff (l : List Pos) (p : Pos) : selfCollision l p = true ↔ p ∈ l := by
  simp only [selfCollision, List.any_eq_true, Bool.and_eq_true, beq_iff_eq]
  constructor
  · rintro ⟨q, hq, hx, hy⟩
    have : q = p := by cases q; cases p; simp_all
    exact this ▸ hq
  · intro hp
    exact ⟨p, hp, rfl, rfl⟩

theorem wallCollision_iff (tileCount : Nat) (p : Pos) :
    wallCollision tileCount p = true ↔
      (p.x < 0 ∨ (tileCount : Int) ≤ p.x ∨ p.y < 0 ∨ (tileCount : Int) ≤ p.y) := by
  simp [wallCollision, or_assoc]

theorem setDirection_snake (a b : Int) (s : GameState) :
    (setDirection a b s).snake = s.snake := by
  simp only [setDirection]
  split
  · rfl
  · split
    · rfl
    · split <;> rfl

theorem togglePause_snake (s : GameState) : (togglePause s).snake = s.snake := by
  simp only [togglePause]
  split <;> rfl

theorem update_nodup {tileCount : Nat} {spawn : List Pos → Food} {s : GameState}
    (h : s.snake.Nodup) : (update tileCount spawn s).snake.Nodup := by
  rcases hw : wallCollision tileCount (newHead s) with _ | _
  · rcases hs : selfCollision s.snake (newHead s) with _ | _
    · have hmem : newHead s ∉ s.snake := by
        intro hm
        rw [← selfCollision_iff] at hm
        simp [hm] at hs
      rcases hf : ((newHead s).x == s.food.x && (newHead s).y == s.food.y) with _ | _
      · rw [update_move hw hs hf]
        exact (List.dropLast_sublist _).nodup (h.cons hmem)
      · rw [update_eat hw hs hf]
        exact h.cons hmem
    · rw [update_self hw hs]
      exact h
  · rw [update_wall hw]
    exact h

theorem snake_nodup_of_reachable {tileCount : Nat} {s : GameState}
    (h : Reachable tileCount s) : s.snake.Nodup := by
  induction h with
  | reset spawn => simp [resetGame]
  | tick spawn h ih =>
    simp only [gameLoop]
    split
    · exact ih
    · exact update_nodup ih
  | dir newDx newDy h ih => rw [setDirection_snake]; exact ih
  | pause h ih => rw [togglePause_snake]; exact ih

theorem randomFoodAux_sound {n : Nat} {snake : List Pos} {r : Nat → Draw}
    (hr : ∀ j, (r j).rx < n ∧ (r j).ry < n) :
    ∀ (fuel i : Nat) (f : Food), randomFoodAux snake r fuel i = some f →
      (0 ≤ f.x ∧ f.x < (n : Int) ∧ 0 ≤ f.y ∧ f.y < (n : Int) ∧
        ∀ p ∈ snake, ¬(p.x = f.x ∧ p.y = f.y)) := by
  intro fuel
  induction fuel with
  | zero => intro i f h; simp [randomFoodAux] at h
  | succ fuel ih =>
    intro i f h
    simp only [randomFoodAux] at h
    split at h
    · exact ih (i + 1) f h
    · rename_i hon
      injection h with h
      subst h
      dsimp only
      refine ⟨by positivity, ?_, by positivity, ?_, ?_⟩
      · exact_mod_cast (hr i).1
      · exact_mod_cast (hr i).2
      · intro p hp hpe
        apply hon
        simp only [onSnake, List.any_eq_true]
        exact ⟨p, hp, by simp [hpe.1, hpe.2]⟩

/- Claim theorems. -/

/-- Claim C1: for every tick in the Running state that does not end the
game, if the new head equals the food position then the score rises by
exactly the point value of the food class (normal = 1, golden = 3) and
the body length rises by exactly 1; otherwise both the body length and
the score are unchanged. -/
theorem tick_eat_growth (tileCount : Nat) (spawn : List Pos → Food) (s : GameState)
    (hOver : s.gameOver = false) (hPause : s.paused = false)
    (hAlive : (gameLoop tileCount spawn s).gameOver = false) :
    (newHead s = (⟨s.food.x, s.food.y⟩ : Pos) →
        (gameLoop tileCount spawn s).score = s.score + points s.food.kind ∧
        (gameLoop tileCount spawn s).snake.length = s.snake.length + 1) ∧
    (newHead s ≠ (⟨s.food.x, s.food.y⟩ : Pos) →
        (gameLoop tileCount spawn s).score = s.score ∧
        (gameLoop tileCount spawn s).snake.length = s.snake.length) := by
  rw [gameLoop_running _ _ _ hOver hPause] at hAlive ⊢
  rcases hw : wallCollision tileCount (newHead s) with _ | _
  · rcases hs : selfCollision s.snake (newHead s) with _ | _
    · rcases hf : ((newHead s).x == s.food.x && (newHead s).y == s.food.y) with _ | _
      · rw [update_move hw hs hf]
        have hne : newHead s ≠ (⟨s.food.x, s.food.y⟩ : Pos) := by
          intro he
          rw [he] at hf
          simp at hf
        refine ⟨fun he => absurd he hne, fun _ => ⟨rfl, ?_⟩⟩
        simp [List.length_dropLast]
      · rw [update_eat hw hs hf]
        have heq : newHead s = (⟨s.food.x, s.food.y⟩ : Pos) := by
          simp only [Bool.and_eq_true, beq_iff_eq] at hf
          cases h : newHead s
          simp_all
        refine ⟨fun _ => ⟨?_, by simp⟩, fun hne => absurd heq hne⟩
        rcases hk : s.food.kind with _ | _ <;> simp [points, hk]
    · rw [update_self hw hs] at hAlive
      simp at hAlive
  · rw [update_wall hw] at hAlive
    simp at hAlive

/-- Witness for C1: from `eatState` the tick eats the normal food, the
score goes 0 to 1 and the body grows from 1 to 2 segments. -/
theorem tick_eat_growth_witness :
    (gameLoop 20 constSpawn eatState).score = eatState.score + points eatState.food.kind ∧
    (gameLoop 20 constSpawn eatState).snake.length = eatState.snake.length + 1 :=
  (tick_eat_growth 20 constSpawn eatState rfl rfl (by decide)).1 (by decide)

/-- Claim C2: a tick in the Running state ends the game if and only if
the new head is outside the grid bounds or is a member of the body as it
is before the move (so the tail cell about to be vacated still counts as
occupied). -/
theorem tick_over_iff_collision (tileCount : Nat) (spawn : List Pos → Food) (s : GameState)
    (hOver : s.gameOver = false) (hPause : s.paused = false) :
    (gameLoop tileCount spawn s).gameOver = true ↔
      ((newHead s).x < 0 ∨ (tileCount : Int) ≤ (newHead s).x ∨
       (newHead s).y < 0 ∨ (tileCount : Int) ≤ (newHead s).y ∨
       newHead s ∈ s.snake) := by
  rw [gameLoop_running _ _ _ hOver hPause]
  rcases hw : wallCollision tileCount (newHead s) with _ | _
  · rcases hs : selfCollision s.snake (newHead s) with _ | _
    · rcases hf : ((newHead s).x == s.food.x && (newHead s).y == s.food.y) with _ | _
      · rw [update_move hw hs hf]
        simp only [hOver]
        constructor
        · intro h; exact absurd h (by simp)
        · intro h
          rcases h with h | h | h | h | h
          · exact absurd ((wallCollision_iff tileCount (newHead s)).2 (Or.inl h)) (by simp [hw])
          · exact absurd ((wallCollision_iff tileCount (newHead s)).2 (Or.inr (Or.inl h))) (by simp [hw])
          · exact absurd ((wallCollision_iff tileCount (newHead s)).2 (Or.inr (Or.inr (Or.inl h)))) (by simp [hw])
          · exact absurd ((wallCollision_iff tileCount (newHead s)).2 (Or.inr (Or.inr (Or.inr h)))) (by simp [hw])
          · exact absurd ((selfCollision_iff s.snake (newHead s)).2 h) (by simp [hs])
      · rw [update_eat hw hs hf]
        simp only [hOver]
        constructor
        · intro h; exact absurd h (by simp)
        · intro h
          rcases h with h | h | h | h | h
          · exact absurd ((wallCollision_iff tileCount (newHead s)).2 (Or.inl h)) (by simp [hw])
          · exact absurd ((wallCollision_iff tileCount (newHead s)).2 (Or.inr (Or.inl h))) (by simp [hw])
          · exact absurd ((wallCollision_iff tileCount (newHead s)).2 (Or.inr (Or.inr (Or.inl h)))) (by simp [hw])
          · exact absurd ((wallCollision_iff tileCount (newHead s)).2 (Or.inr (Or.inr (Or.inr h)))) (by simp [hw])
          · exact absurd ((selfCollision_iff s.snake (newHead s)).2 h) (by simp [hs])
    · rw [update_self hw hs]
      constructor
      · intro _
        exact Or.inr (Or.inr (Or.inr (Or.inr ((selfCollision_iff s.snake (newHead s)).1 hs))))
      · intro _; trivial
  · rw [update_wall hw]
    constructor
    · intro _
      have := (wallCollision_iff tileCount (newHead s)).1 hw
      tauto
    · intro _; trivial

/-- Witness for C2: from `wallState` on a 20-cell grid the tick moves
the head to x = 20, a wall collision, and the game ends. -/
theorem tick_over_iff_collision_witness :
    (gameLoop 20 constSpawn wallState).gameOver = true ↔
      ((newHead wallState).x < 0 ∨ (20 : Int) ≤ (newHead wallState).x ∨
       (newHead wallState).y < 0 ∨ (20 : Int) ≤ (newHead wallState).y ∨
       newHead wallState ∈ wallState.snake) :=
  tick_over_iff_collision 20 constSpawn wallState rfl rfl

/-- Claim C3: in every state reachable from `resetGame` by ticks,
direction changes and pause toggles, the body holds no duplicate
positions while the game is Running. -/
theorem reachable_body_nodup (tileCount : Nat) (s : GameState)
    (h : Reachable tileCount s)
    (hOver : s.gameOver = false) (hPause : s.paused = false) :
    s.snake.Nodup :=
  snake_nodup_of_reachable h

/-- Witness for C3: the freshly reset state is Running and its
one-segment body has no duplicates. -/
theorem reachable_body_nodup_witness : (resetGame constSpawn).snake.Nodup :=
  reachable_body_nodup 20 (resetGame constSpawn) (Reachable.reset constSpawn) rfl rfl

/-- Counterexample to claim C4 as stated: in a paused, not-over state
the code does not guard `setDirection` (only `gameOver` is checked), so
a direction change is applied while Paused and the state changes. -/
theorem setDirection_paused_cex :
    pausedState.paused = true ∧ pausedState.gameOver = false ∧
    setDirection 0 (-1) pausedState ≠ pausedState := by decide

/-- Claim C4 amended: `setDirection` is a no-op, for every argument,
whenever the game is Over; while merely Paused the guards are the same
as when Running. -/
theorem setDirection_over_noop (newDx newDy : Int) (s : GameState)
    (h : s.gameOver = true) : setDirection newDx newDy s = s := by
  simp [setDirection, h]

/-- Witness for the amended C4: in the concrete game-over state any
direction arguments leave the state untouched. -/
theorem setDirection_over_noop_witness :
    overState.gameOver = true ∧ setDirection 7 9 overState = overState :=
  ⟨rfl, setDirection_over_noop 7 9 overState rfl⟩

/-- Counterexample to claim C5 as stated: in the Running state
`downState` (direction (0,1)) with the lock clear, the call
`setDirection(0,-1)` is a rejected reversal, the later
`setDirection(-1,0)` is accepted, and after the tick the direction is
(-1,0), not (0,-1). -/
theorem turn_lock_cex :
    downState.gameOver = false ∧ downState.paused = false ∧
    downState.directionLock = false ∧
    ¬ ((gameLoop 20 constSpawn (setDirection (-1) 0 (setDirection 0 (-1) downState))).dx = 0 ∧
       (gameLoop 20 constSpawn (setDirection (-1) 0 (setDirection 0 (-1) downState))).dy = -1) := by
  decide

/-- Claim C5 amended: in a Running state with the lock clear whose
direction is not (0,1) (so the first call is valid), calling
`setDirection(0,-1)` and then `setDirection(-1,0)` before the next tick
leaves direction (0,-1) after the tick — the second call is ignored
because the first set the per-tick lock, and the tick clears the lock
again. -/
theorem turn_lock_first_valid_wins (tileCount : Nat) (spawn : List Pos → Food) (s : GameState)
    (hOver : s.gameOver = false) (hPause : s.paused = false)
    (hLock : s.directionLock = false) (hNotRev : ¬(s.dx = 0 ∧ s.dy = 1)) :
    (setDirection (-1) 0 (setDirection 0 (-1) s)).dx = 0 ∧
    (setDirection (-1) 0 (setDirection 0 (-1) s)).dy = -1 ∧
    (gameLoop tileCount spawn (setDirection (-1) 0 (setDirection 0 (-1) s))).dx = 0 ∧
    (gameLoop tileCount spawn (setDirection (-1) 0 (setDirection 0 (-1) s))).dy = -1 ∧
    (gameLoop tileCount spawn (setDirection (-1) 0 (setDirection 0 (-1) s))).directionLock = false := by
  have hrev : ((0 : Int) == -s.dx && (-1 : Int) == -s.dy) = false := by
    simp only [Bool.and_eq_false_eq_eq_false_or_eq_false, beq_eq_false_iff_ne, ne_eq]
    omega
  have h1 : setDirection 0 (-1) s =
      { s with dx := 0, dy := -1, directionLock := true } := by
    simp [setDirection, hOver, hLock, hrev]
  have h2 : setDirection (-1) 0 (setDirection 0 (-1) s) = setDirection 0 (-1) s := by
    rw [h1]; simp [setDirection, hOver]
  rw [h2, h1]
  rw [gameLoop_running _ _ _ (by simpa using hOver) (by simpa using hPause)]
  refine ⟨rfl, rfl, ?_, ?_, rfl⟩ <;>
    · simp only [update, newHead]
      split <;> try rfl
      split <;> try rfl
      split <;> rfl

/-- Witness for the amended C5: from `runState` (direction (1,0)) the
first call wins and direction is (0,-1) after the tick, lock cleared. -/
theorem turn_lock_first_valid_wins_witness :
    (setDirection (-1) 0 (setDirection 0 (-1) runState)).dx = 0 ∧
    (setDirection (-1) 0 (setDirection 0 (-1) runState)).dy = -1 ∧
    (gameLoop 20 constSpawn (setDirection (-1) 0 (setDirection 0 (-1) runState))).dx = 0 ∧
    (gameLoop 20 constSpawn (setDirection (-1) 0 (setDirection 0 (-1) runState))).dy = -1 ∧
    (gameLoop 20 constSpawn (setDirection (-1) 0 (setDirection 0 (-1) runState))).directionLock = false :=
  turn_lock_first_valid_wins 20 constSpawn runState rfl rfl rfl (by decide)

/-- Claim C6: for every state, calling `setDirection` with the exact
opposite of the current direction is silently ignored: the whole core
state is returned unchanged. -/
theorem setDirection_reverse_noop (s : GameState) : setDirection (-s.dx) (-s.dy) s = s := by
  simp [setDirection]

/-- Claim C7: the tick interval is `max(60, 140 - floor(score/3)*12)`;
the quoted values at scores 0, 3, 6 and 30; it is monotonically
non-increasing in the score and never below 60. -/
theorem getSpeedMs_spec :
    (∀ s : Nat, getSpeedMs s = max 60 (140 - ((s / 3 : Nat) : Int) * 12)) ∧
    getSpeedMs 0 = 140 ∧ getSpeedMs 3 = 128 ∧ getSpeedMs 6 = 116 ∧ getSpeedMs 30 = 60 ∧
    (∀ s t : Nat, s ≤ t → getSpeedMs t ≤ getSpeedMs s) ∧
    (∀ s : Nat, 60 ≤ getSpeedMs s) := by
  refine ⟨fun s => rfl, by decide, by decide, by decide, by decide, ?_, fun s => le_max_left _ _⟩
  intro s t hst
  have h : s / 3 ≤ t / 3 := Nat.div_le_div_right (c := 3) hst
  simp only [getSpeedMs, START_SPEED_MS, MIN_SPEED_MS, SPEED_UP_EVERY]
  omega

/-- Witness for C7 at the inner monotonicity hypothesis: 3 ≤ 6 and the
interval at score 6 is at most the interval at score 3. -/
theorem getSpeedMs_spec_witness : (3 : Nat) ≤ 6 ∧ getSpeedMs 6 ≤ getSpeedMs 3 :=
  ⟨by decide, getSpeedMs_spec.2.2.2.2.2.1 3 6 (by decide)⟩

/-- Claim C8: when the occupied cells do not cover the whole grid, every
food the spawner returns lies inside the grid bounds and off the
occupied cells, and a terminating run of the sampler exists. -/
theorem randomFood_spec (tileCount : Nat) (snake : List Pos)
    (hfree : ∃ q : Pos, 0 ≤ q.x ∧ q.x < (tileCount : Int) ∧ 0 ≤ q.y ∧
      q.y < (tileCount : Int) ∧ q ∉ snake) :
    (∀ (r : Nat → Draw) (fuel : Nat) (f : Food),
        (∀ j, (r j).rx < tileCount ∧ (r j).ry < tileCount) →
        randomFood snake r fuel = some f →
        (0 ≤ f.x ∧ f.x < (tileCount : Int) ∧ 0 ≤ f.y ∧ f.y < (tileCount : Int) ∧
          ∀ p ∈ snake, ¬(p.x = f.x ∧ p.y = f.y))) ∧
    (∃ (r : Nat → Draw) (fuel : Nat) (f : Food), randomFood snake r fuel = some f) := by
  constructor
  · intro r fuel f hr h
    exact randomFoodAux_sound hr fuel 0 f h
  · obtain ⟨q, hx0, hxn, hy0, hyn, hq⟩ := hfree
    refine ⟨fun _ => ⟨q.x.toNat, q.y.toNat, false⟩, 1,
      ⟨((q.x.toNat : Nat) : Int), ((q.y.toNat : Nat) : Int), .normal⟩, ?_⟩
    have hmx : q.x ⊔ 0 = q.x := sup_eq_left.mpr hx0
    have hmy : q.y ⊔ 0 = q.y := sup_eq_left.mpr hy0
    have hon : onSnake snake (q.x ⊔ 0) (q.y ⊔ 0) = false := by
      rw [hmx, hmy]
      simp only [onSnake, List.any_eq_false]
      intro p hp
      simp only [Bool.and_eq_true, beq_iff_eq, not_and]
      intro h1 h2
      exact absurd (show p = q by cases p; cases q; simp_all) (fun he => hq (he ▸ hp))
    simp [randomFood, randomFoodAux, hon]

/-- Witness for C8: with a one-segment snake on a 20-cell grid the cell
(0,0) is free, so a terminating spawner run exists. -/
theorem randomFood_spec_witness :
    ∃ (r : Nat → Draw) (fuel : Nat) (f : Food),
      randomFood [(⟨10, 10⟩ : Pos)] r fuel = some f :=
  (randomFood_spec 20 [⟨10, 10⟩]
    ⟨⟨0, 0⟩, by decide, by decide, by decide, by decide, by decide⟩).2

/-- Claim C9: on a tick that ends the game, body, direction, score, food
and the pause flag are exactly as they were before the tick; the
collision branches return before the head is prepended or the tail
removed. -/
theorem tick_gameover_frame (tileCount : Nat) (spawn : List Pos → Food) (s : GameState)
    (hOver : s.gameOver = false) (hPause : s.paused = false)
    (hEnd : (gameLoop tileCount spawn s).gameOver = true) :
    (gameLoop tileCount spawn s).snake = s.snake ∧
    (gameLoop tileCount spawn s).dx = s.dx ∧
    (gameLoop tileCount spawn s).dy = s.dy ∧
    (gameLoop tileCount spawn s).score = s.score ∧
    (gameLoop tileCount spawn s).food = s.food ∧
    (gameLoop tileCount spawn s).paused = s.paused := by
  rw [gameLoop_running _ _ _ hOver hPause] at hEnd ⊢
  rcases hw : wallCollision tileCount (newHead s) with _ | _
  · rcases hs : selfCollision s.snake (newHead s) with _ | _
    · rcases hf : ((newHead s).x == s.food.x && (newHead s).y == s.food.y) with _ | _
      · rw [update_move hw hs hf] at hEnd
        simp [hOver] at hEnd
      · rw [update_eat hw hs hf] at hEnd
        simp [hOver] at hEnd
    · rw [update_self hw hs]
      exact ⟨rfl, rfl, rfl, rfl, rfl, rfl⟩
  · rw [update_wall hw]
    exact ⟨rfl, rfl, rfl, rfl, rfl, rfl⟩

/-- Witness for C9: the wall-collision tick from `wallState` changes
none of body, direction, score, food or the pause flag. -/
theorem tick_gameover_frame_witness :
    (gameLoop 20 constSpawn wallState).snake = wallState.snake ∧
    (gameLoop 20 constSpawn wallState).dx = wallState.dx ∧
    (gameLoop 20 constSpawn wallState).dy = wallState.dy ∧
    (gameLoop 20 constSpawn wallState).score = wallState.score ∧
    (gameLoop 20 constSpawn wallState).food = wallState.food ∧
    (gameLoop 20 constSpawn wallState).paused = wallState.paused :=
  tick_gameover_frame 20 constSpawn wallState rfl rfl (by decide)

/-- Claim C10: in a Running state with the lock clear and a direction
that is not (0,0), calling `setDirection` with the current direction
itself is accepted: the direction keeps its value, the per-tick lock
becomes set, and any further `setDirection` call before the next tick is
ignored. -/
theorem setDirection_same_dir_consumes_lock (a b : Int) (s : GameState)
    (hOver : s.gameOver = false) (hPause : s.paused = false)
    (hLock : s.directionLock = false) (hnz : ¬(s.dx = 0 ∧ s.dy = 0)) :
    (setDirection s.dx s.dy s).dx = s.dx ∧
    (setDirection s.dx s.dy s).dy = s.dy ∧
    (setDirection s.dx s.dy s).directionLock = true ∧
    setDirection a b (setDirection s.dx s.dy s) = setDirection s.dx s.dy s := by
  have hrev : (s.dx == -s.dx && s.dy == -s.dy) = false := by
    simp only [Bool.and_eq_false_eq_eq_false_or_eq_false, beq_eq_false_iff_ne, ne_eq]
    omega
  simp [setDirection, hOver, hLock, hrev]

/-- Witness for C10: from `runState`, a same-direction call keeps
(1,0), sets the lock, and a later call with (0,1) is ignored. -/
theorem setDirection_same_dir_consumes_lock_witness :
    (setDirection runState.dx runState.dy runState).dx = runState.dx ∧
    (setDirection runState.dx runState.dy runState).dy = runState.dy ∧
    (setDirection runState.dx runState.dy runState).directionLock = true ∧
    setDirection 0 1 (setDirection runState.dx runState.dy runState) =
      setDirection runState.dx runState.dy runState :=
  setDirection_same_dir_consumes_lock 0 1 runState rfl rfl rfl (by decide)

end Snake
